import Mathlib

/-!
Shallow embedding of the `lt-chalice` repository (two Python source files:
`lt-chalice/app.py` and `manage_app.py`) and proofs about its behaviour.

External AWS calls (Rekognition, SSM, SNS, STS, S3) are modelled by explicit
oracle inputs of type `Except ClientError _`: a Python `ClientError` raised by
boto3 corresponds to the `.error` case, which each `try/except ClientError`
block of the source catches.  Logging is modelled by an explicit list of log
entries returned alongside each function's result, and SNS publish calls by an
explicit trace of `PublishCall` records, so that "issues k publish calls" and
"logs an error" become statements about these traces.  An uncaught exception
(Python `raise`) is modelled by an `Option ClientError` (or `Except`)
component of the result: `none`/`.ok` means the function returned normally.
-/

/-- A boto3 `ClientError`: the code reads `err.response['Error']['Code']`,
so we keep the error code and a free-form message. -/
structure ClientError where
  code : String
  msg : String
deriving DecidableEq, Repr

/-- Log levels used by the two source files. -/
inductive LogLevel where
  | debug
  | info
  | warning
  | error
deriving DecidableEq, Repr

/-- One emitted log record: level and the formatted message. -/
structure LogEntry where
  level : LogLevel
  text : String
deriving DecidableEq, Repr

/-- A face-detail record from the Rekognition `detect_faces` response:
the code reads only `AgeRange.Low` and `AgeRange.High`; the remaining
attributes are kept as an opaque serialized payload (`attrs`), which the
code only dumps to the debug log. -/
structure FaceDetail where
  ageLow : Nat
  ageHigh : Nat
  attrs : String
deriving DecidableEq, Repr

/-- An S3 object-created event as seen by the handler: bucket and key. -/
structure UploadEvent where
  bucket : String
  key : String
deriving DecidableEq, Repr

/-- The SNS `publish` response, kept as an opaque record (the code never
inspects it, only returns the last one). -/
structure SnsResp where
  messageId : String
deriving DecidableEq, Repr

/-- One SNS `publish` call as issued by `send_notification`:
`Message=message, PhoneNumber=phone`. -/
structure PublishCall where
  message : String
  phone : String
deriving DecidableEq, Repr

/-- Environment (oracle) for `recognize_faces`: the outcome of the single
`detect_faces` call for the event's bucket/key. -/
structure RekEnv where
  detectFaces : Except ClientError (List FaceDetail)

/-- Environment (oracle) for `send_notification`: the outcome of the SSM
`get_parameter(Name=PHONE_NUM_PARAM, WithDecryption=True)` call, and the
outcome of the i-th SNS `publish` call (counting from 0). -/
structure SnsEnv where
  getParameter : Except ClientError String
  publish : Nat → Except ClientError SnsResp

/-- The message text `'The detected face is between {} and {} years old'`
formatted with the face's age range. -/
def ageMessage (fd : FaceDetail) : String :=
  "The detected face is between " ++ toString fd.ageLow ++ " and " ++
    toString fd.ageHigh ++ " years old"

/-- The `for face_detail in face_details:` publish loop of
`send_notification`, inside its `try/except ClientError` block.
`i` is the index of the next publish call, `acc` the current value of
`result` (`none` models the initial empty dict `{}`).  Returns the final
`result`, the trace of publish calls issued (a failing call is still
issued), and the log entries emitted. -/
def sendLoop (env : SnsEnv) (phone : String) :
    Nat → List FaceDetail → Option SnsResp →
    Option SnsResp × List PublishCall × List LogEntry
  | _, [], acc => (acc, [], [])
  | i, fd :: rest, acc =>
    let msg := ageMessage fd
    match env.publish i with
    | .ok r =>
      let out := sendLoop env phone (i + 1) rest (some r)
      (out.1, ⟨msg, phone⟩ :: out.2.1, out.2.2)
    | .error e =>
      (acc, [⟨msg, phone⟩],
        [⟨.error, "Unable to send notification! " ++ e.msg⟩])

/-- `send_notification(face_details)` from `lt-chalice/app.py`:
resolve the phone number from SSM (on `ClientError` log an error and
return the empty `result`), then publish one message per face; a
`ClientError` during publishing is logged and the loop aborts, returning
the `result` of the last successful publish. -/
def send_notification (env : SnsEnv) (face_details : List FaceDetail) :
    Option SnsResp × List PublishCall × List LogEntry :=
  match env.getParameter with
  | .error e =>
    (none, [], [⟨.error, "Unable to retreive phone number! " ++ e.msg⟩])
  | .ok phone => sendLoop env phone 0 face_details none

/-- `recognize_faces(event)` from `lt-chalice/app.py`: call `detect_faces`
on the event's bucket/key; on success log a summary and per-face info and
debug lines and return the face list; on `ClientError` log an error and
return the empty list. -/
def recognize_faces (env : RekEnv) (event : UploadEvent) :
    List FaceDetail × List LogEntry :=
  match env.detectFaces with
  | .ok faces =>
    (faces,
      ⟨.info, "Detected " ++ toString faces.length ++ " face(s) for " ++
        event.key⟩ ::
      faces.flatMap (fun fd =>
        [⟨.info, ageMessage fd⟩,
         ⟨.debug, "Here are the other attributes:"⟩,
         ⟨.debug, fd.attrs⟩]))
  | .error e =>
    ([], [⟨.error, "Unable to run face detection! " ++ e.msg⟩])

/-- `image_upload_handler(event)`: `send_notification(recognize_faces(event))`.
Both callees catch every `ClientError` raised by their service calls, so the
handler's model is a total function: no exception component appears in its
result type.  Returns the dispatcher result, the publish-call trace, and all
log entries in order. -/
def image_upload_handler (renv : RekEnv) (senv : SnsEnv) (event : UploadEvent) :
    Option SnsResp × List PublishCall × List LogEntry :=
  let rec_out := recognize_faces renv event
  let snd_out := send_notification senv rec_out.1
  (snd_out.1, snd_out.2.1, rec_out.2 ++ snd_out.2.2)

/-! ### Model of `manage_app.py` -/

/-- A JSON value, enough for the Chalice deployment configuration file
(`.chalice/config.json`). Objects are association lists in insertion
order, matching Python dict semantics after `json.loads` (which keeps the
last value for a duplicated key, so keys are distinct). -/
inductive Json where
  | str (s : String)
  | num (n : Int)
  | boolean (b : Bool)
  | null
  | arr (xs : List Json)
  | obj (fields : List (String × Json))

/-- First-match lookup in a JSON object's field list (`config[key]` /
`key in config` on a Python dict with distinct keys). -/
def lookupKey : List (String × Json) → String → Option Json
  | [], _ => none
  | (k, v) :: rest, key => if k = key then some v else lookupKey rest key

/-- `d[key] = v` on a Python dict: replace the value of an existing key in
place, otherwise append the new key at the end. -/
def setKey : List (String × Json) → String → Json → List (String × Json)
  | [], key, v => [(key, v)]
  | (k, w) :: rest, key, v =>
    if k = key then (key, v) :: rest else (k, w) :: setKey rest key v

/-- An SSM parameter as stored by the service: its secret value and its
resource tags (key/value pairs). -/
structure SsmParam where
  value : String
  tags : List (String × String)
deriving DecidableEq, Repr

/-- The SSM service state together with an injected environmental failure
for `list_tags_for_resource` (e.g. access denied): the tag-listing call
returns `listTagsFault` when it is set, independent of the stored state.
`params` maps parameter names to parameters. -/
structure SsmWorld where
  params : List (String × SsmParam)
  listTagsFault : Option ClientError
deriving DecidableEq, Repr

/-- First-match lookup of a parameter by name. -/
def findParam : List (String × SsmParam) → String → Option SsmParam
  | [], _ => none
  | (k, p) :: rest, name => if k = name then some p else findParam rest name

/-- Remove a parameter by name. -/
def removeParam : List (String × SsmParam) → String → List (String × SsmParam)
  | [], _ => []
  | (k, p) :: rest, name =>
    if k = name then rest else (k, p) :: removeParam rest name

/-- `ssm.list_tags_for_resource(ResourceType='Parameter', ResourceId=name)`:
an injected fault if present, an `InvalidResourceId` error if the
parameter does not exist, otherwise the parameter's tags. -/
def listTagsForResource (w : SsmWorld) (name : String) :
    Except ClientError (List (String × String)) :=
  match w.listTagsFault with
  | some e => .error e
  | none =>
    match findParam w.params name with
    | some p => .ok p.tags
    | none => .error ⟨"InvalidResourceId", "parameter not found"⟩

/-- `ssm.put_parameter(... Type='SecureString', Tags=[...])` without
`Overwrite`: fails with `ParameterAlreadyExists` when the name is taken,
otherwise stores the value with the given tags. -/
def putParameterCreate (w : SsmWorld) (name value : String)
    (tags : List (String × String)) : Except ClientError SsmWorld :=
  match findParam w.params name with
  | some _ => .error ⟨"ParameterAlreadyExists", "parameter already exists"⟩
  | none => .ok { w with params := w.params ++ [(name, ⟨value, tags⟩)] }

/-- `ssm.put_parameter(... Overwrite=True)`: replace the value of the
existing parameter, leaving its tags unchanged (tags cannot be passed with
`Overwrite`; the code updates them separately). -/
def putParameterOverwrite (w : SsmWorld) (name value : String) : SsmWorld :=
  { w with
    params := w.params.map fun kp =>
      if kp.1 = name then (kp.1, ⟨value, kp.2.tags⟩) else kp }

/-- Set one tag on a tag list: replace an existing key, else append. -/
def setTag : List (String × String) → String → String → List (String × String)
  | [], key, v => [(key, v)]
  | (k, w) :: rest, key, v =>
    if k = key then (key, v) :: rest else (k, w) :: setTag rest key v

/-- `ssm.add_tags_to_resource(... Tags=[{Key, Value}])` on an existing
parameter: merge the tag into the parameter's tag list. -/
def addTagsToResource (w : SsmWorld) (name key value : String) : SsmWorld :=
  { w with
    params := w.params.map fun kp =>
      if kp.1 = name then (kp.1, ⟨kp.2.value, setTag kp.2.tags key value⟩)
      else kp }

/-- `ssm.delete_parameter(Name=name)`: `ParameterNotFound` if absent,
otherwise remove it. -/
def deleteParameter (w : SsmWorld) (name : String) :
    Except ClientError SsmWorld :=
  match findParam w.params name with
  | some _ => .ok { w with params := removeParam w.params name }
  | none => .error ⟨"ParameterNotFound", "parameter not found"⟩

/-- `get_ssm_param_userid(client, args)` from `manage_app.py`, as a function
of the outcome of the `list_tags_for_resource` call: default to
`'lt-chalice-user'`, overwrite with the value of each `CreatedBy` tag seen;
on `ClientError` other than `InvalidResourceId` log an error; either way
return the default. -/
def get_ssm_param_userid
    (tagListResult : Except ClientError (List (String × String))) :
    String × List LogEntry :=
  match tagListResult with
  | .ok tags =>
    (tags.foldl (fun acc t => if t.1 = "CreatedBy" then t.2 else acc)
      "lt-chalice-user", [])
  | .error e =>
    if e.code ≠ "InvalidResourceId" then
      ("lt-chalice-user",
        [⟨.error, "Unable to get SSM parameter tags! " ++ e.msg⟩])
    else ("lt-chalice-user", [])

/-- `get_current_user()` from `manage_app.py`, as a function of the outcome
of `sts.get_caller_identity()['UserId']`: on `ClientError` log a warning
and default to `'lt-chalice-user'`. -/
def get_current_user (stsResult : Except ClientError String) :
    String × List LogEntry :=
  match stsResult with
  | .ok u => (u, [])
  | .error e =>
    ("lt-chalice-user",
      [⟨.warning,
        "Unable to retrieve current user.  Defaulting to \"lt-chalice-user\". "
          ++ e.msg⟩])

/-- `create_ssm_param(args)` from `manage_app.py`.  `stsResult` is the
outcome of the STS caller-identity call.  Returns the new SSM state, the
log entries, and the uncaught exception (`some e` models `raise`).
Note the source: when the initial `put_parameter` fails with
`ParameterAlreadyExists` and the current caller differs from the tagged
creator, the inner `if` has no `else` — nothing is done, logged or raised. -/
def create_ssm_param (w : SsmWorld) (stsResult : Except ClientError String)
    (phone_num_name phone_num_value : String) :
    SsmWorld × List LogEntry × Option ClientError :=
  let cu := get_current_user stsResult
  let pu := get_ssm_param_userid (listTagsForResource w phone_num_name)
  let logs0 := cu.2 ++ pu.2
  match putParameterCreate w phone_num_name phone_num_value
      [("CreatedBy", cu.1)] with
  | .ok w1 =>
    (w1, logs0 ++
      [⟨.info, "SSM parameter \"" ++ phone_num_name ++ "\" created"⟩], none)
  | .error e =>
    if e.code = "ParameterAlreadyExists" then
      if cu.1 = pu.1 then
        let w1 := putParameterOverwrite w phone_num_name phone_num_value
        let w2 := addTagsToResource w1 phone_num_name "CreatedBy" cu.1
        (w2, logs0 ++
          [⟨.info, "SSM parameter \"" ++ phone_num_name ++ "\" updated"⟩],
          none)
      else (w, logs0, none)
    else
      (w, logs0 ++
        [⟨.error, "Unable to create SSM parameter! " ++ e.msg⟩], some e)

/-- `delete_ssm_param(args)` from `manage_app.py`: delete only when the
current caller matches the tagged creator, else log a warning and skip;
`ParameterNotFound` from the delete call is treated as success. -/
def delete_ssm_param (w : SsmWorld) (stsResult : Except ClientError String)
    (phone_num_name : String) :
    SsmWorld × List LogEntry × Option ClientError :=
  let cu := get_current_user stsResult
  let pu := get_ssm_param_userid (listTagsForResource w phone_num_name)
  let logs0 := cu.2 ++ pu.2
  if cu.1 = pu.1 then
    match deleteParameter w phone_num_name with
    | .ok w1 =>
      (w1, logs0 ++
        [⟨.info, "SSM parameter \"" ++ phone_num_name ++ "\" deleted"⟩], none)
    | .error e =>
      if e.code = "ParameterNotFound" then
        (w, logs0 ++
          [⟨.info, "SSM parameter \"" ++ phone_num_name ++
            "\" does not exist.  Proceeding."⟩], none)
      else
        (w, logs0 ++
          [⟨.error, "Unable to delete SSM parameter! " ++ e.msg⟩], some e)
  else
    (w, logs0 ++
      [⟨.warning, "SSM parameter \"" ++ phone_num_name ++
        "\" was not created by you!  Skipping."⟩], none)

/-- `update_chalice_config(args, delete_flag)` from `manage_app.py`, on the
parsed contents of `.chalice/config.json` (top-level JSON object fields):
insert an empty `environment_variables` mapping when the key is absent,
then assign `PHONE_NUM_PARAM` and `S3_BUCKET` inside it (real names on
deploy, empty strings when `delete_flag` is set).  When the existing
`environment_variables` value is not an object, the Python item assignment
raises a `TypeError`, which the `except Exception` block logs and
re-raises: modelled by the `.error` case.  The two debug dumps of the
config are modelled as fixed-text debug entries. -/
def update_chalice_config (config : List (String × Json))
    (phone_num_name s3_bucket : String) (delete_flag : Bool) :
    Except String (List (String × Json)) × List LogEntry :=
  let cfg :=
    if (lookupKey config "environment_variables").isSome then config
    else setKey config "environment_variables" (.obj [])
  match lookupKey cfg "environment_variables" with
  | some (.obj ev) =>
    let p := if delete_flag then "" else phone_num_name
    let s := if delete_flag then "" else s3_bucket
    let ev1 := setKey (setKey ev "PHONE_NUM_PARAM" (.str p)) "S3_BUCKET" (.str s)
    (.ok (setKey cfg "environment_variables" (.obj ev1)),
      [⟨.debug, "Chalice config before"⟩, ⟨.debug, "Chalice config after"⟩])
  | _ =>
    (.error "TypeError: item assignment on a non-mapping value",
      [⟨.error, "Unable to update Chalice config! TypeError"⟩])

/-- The command line as handed to `argparse`: for each option, `some v`
when `--option v` was supplied and `none` when it was absent. -/
structure CliInput where
  action : Option String
  s3_bucket : Option String
  phone_num_name : Option String
  phone_num_value : Option String
  chalice_app_dir : Option String
  region : Option String

/-- The parsed argument namespace.  `phone_num_value` stays optional:
its `add_argument` call has no `required=True`, so an absent option parses
to `None`. -/
structure Args where
  action : String
  s3_bucket : String
  phone_num_name : String
  phone_num_value : Option String
  chalice_app_dir : String
  region : String
deriving DecidableEq, Repr

/-- `parse_arguments()` from `manage_app.py`: `--action` (restricted to
`deploy`/`delete`), `--s3-bucket` and `--phone-number-parameter-name` are
declared `required=True`; `--phone-number-parameter-value` is not;
`--chalice-app-dir` defaults to `"lt-chalice"` and `--region` to
`"us-west-2"`.  `argparse` failures (missing required option, invalid
choice) exit the process: modelled by the `.error` case. -/
def parse_arguments (cli : CliInput) : Except String Args :=
  match cli.action with
  | none => .error "the following arguments are required: --action"
  | some a =>
    if a = "deploy" ∨ a = "delete" then
      match cli.s3_bucket with
      | none => .error "the following arguments are required: --s3-bucket"
      | some b =>
        match cli.phone_num_name with
        | none =>
          .error
            "the following arguments are required: --phone-number-parameter-name"
        | some n =>
          .ok ⟨a, b, n, cli.phone_num_value,
            cli.chalice_app_dir.getD "lt-chalice",
            cli.region.getD "us-west-2"⟩
    else .error "argument --action: invalid choice"

/-- The S3 service state: bucket names mapped to their object keys. -/
def findBucket : List (String × List String) → String → Option (List String)
  | [], _ => none
  | (k, objs) :: rest, name =>
    if k = name then some objs else findBucket rest name

/-- Remove a bucket by name. -/
def removeBucket : List (String × List String) → String →
    List (String × List String)
  | [], _ => []
  | (k, objs) :: rest, name =>
    if k = name then rest else (k, objs) :: removeBucket rest name

/-- The effect of `bucket.objects.all().delete()` followed by
`bucket.delete()`: on a nonexistent bucket the first call raises a
`NoSuchBucket` `ClientError`; otherwise all objects and then the bucket
are removed. -/
def s3DeleteBucketRaw (buckets : List (String × List String))
    (name : String) : Except ClientError (List (String × List String)) :=
  match findBucket buckets name with
  | some _ => .ok (removeBucket buckets name)
  | none => .error ⟨"NoSuchBucket", "bucket not found"⟩

/-- `delete_s3_bucket(args)` from `manage_app.py`: empty and delete the
bucket; a `NoSuchBucket` error is logged as "does not exist.  Proceeding."
and swallowed; any other `ClientError` is logged and re-raised. -/
def delete_s3_bucket (buckets : List (String × List String))
    (s3_bucket : String) :
    List (String × List String) × List LogEntry × Option ClientError :=
  match s3DeleteBucketRaw buckets s3_bucket with
  | .ok b1 =>
    (b1, [⟨.info, "S3 bucket \"" ++ s3_bucket ++ "\" deleted"⟩], none)
  | .error e =>
    if e.code = "NoSuchBucket" then
      (buckets, [⟨.info, "S3 bucket \"" ++ s3_bucket ++
        "\" does not exist.  Proceeding."⟩], none)
    else
      (buckets, [⟨.error, "Unable to delete S3 bucket! " ++ e.msg⟩], some e)

/-- `chalice_command(args, action)` from `manage_app.py`, as a function of
the subprocess outcome: on success log the action and its stdout; on a
nonzero exit (or any other failure) log the command's error output and
re-raise.  The two error-log lines of the failure path are collapsed into
a single entry. -/
def chalice_command (cmdResult : Except String String) (action : String) :
    List LogEntry × Option String :=
  match cmdResult with
  | .ok out => ([⟨.info, action ++ "\n" ++ out⟩], none)
  | .error e => ([⟨.error, e⟩], some e)

/-- The world state threaded through a lifecycle-manager action:
the outcome of the chalice subprocess for this action, the parsed chalice
config file, the SSM state, the STS caller-identity outcome, and the S3
state. -/
structure ManageWorld where
  chaliceResult : Except String String
  config : List (String × Json)
  ssm : SsmWorld
  stsResult : Except ClientError String
  buckets : List (String × List String)

/-- `delete(arguments)` from `manage_app.py`: chalice delete, blank the
config's environment variables, delete the SSM parameter, delete the S3
bucket; an uncaught exception from any step aborts the remaining steps
(`some errText` in the last component). -/
def runDelete (w : ManageWorld) (args : Args) :
    ManageWorld × List LogEntry × Option String :=
  let l0 : List LogEntry := [⟨.info, "Deleting Chalice app..."⟩]
  let c := chalice_command w.chaliceResult "delete"
  match c.2 with
  | some e => (w, l0 ++ c.1, some e)
  | none =>
    let u := update_chalice_config w.config args.phone_num_name
      args.s3_bucket true
    match u.1 with
    | .error e => (w, l0 ++ c.1 ++ u.2, some e)
    | .ok cfg1 =>
      let w1 : ManageWorld := { w with config := cfg1 }
      let d := delete_ssm_param w1.ssm w1.stsResult args.phone_num_name
      let w2 : ManageWorld := { w1 with ssm := d.1 }
      match d.2.2 with
      | some e => (w2, l0 ++ c.1 ++ u.2 ++ d.2.1, some e.msg)
      | none =>
        let b := delete_s3_bucket w2.buckets args.s3_bucket
        let w3 : ManageWorld := { w2 with buckets := b.1 }
        match b.2.2 with
        | some e => (w3, l0 ++ c.1 ++ u.2 ++ d.2.1 ++ b.2.1, some e.msg)
        | none =>
          (w3, l0 ++ c.1 ++ u.2 ++ d.2.1 ++ b.2.1 ++ [⟨.info, "Complete"⟩],
            none)

/-- A well-formed chalice config for `update_chalice_config`: either no
`environment_variables` key, or one whose value is a JSON object (anything
else makes the Python item assignment raise a `TypeError`). -/
def WellFormedConfig (fields : List (String × Json)) : Prop :=
  lookupKey fields "environment_variables" = none ∨
  ∃ ev, lookupKey fields "environment_variables" = some (Json.obj ev)

/-- The `environment_variables` object of a config, as a field list
(empty when absent or not an object). -/
def envFields (fields : List (String × Json)) : List (String × Json) :=
  match lookupKey fields "environment_variables" with
  | some (.obj ev) => ev
  | _ => []

/-- The field list carried by an `.ok` config-update result (empty on
error). -/
def okFields (r : Except String (List (String × Json))) :
    List (String × Json) :=
  match r with
  | .ok cfg => cfg
  | .error _ => []

/-- `∀ j < k`, the j-th SNS publish call of the environment succeeds. -/
def publishesOk (env : SnsEnv) (k : Nat) : Prop :=
  ∀ j, j < k → (env.publish j).isOk = true

/-- The `result` value that `send_notification` holds when the publish at
index `i` fails: the response of the last successful publish, or the empty
initial `result` when the very first publish failed. -/
def lastOkResult (env : SnsEnv) (i : Nat) : Option SnsResp :=
  match i with
  | 0 => none
  | j + 1 => (env.publish j).toOption

/-! ### Concrete instances used in closed theorems -/

/-- A dispatcher environment where the SSM read and every publish succeed. -/
def envAllOk : SnsEnv :=
  ⟨.ok "+15551230000", fun _ => .ok ⟨"mid-1"⟩⟩

/-- A dispatcher environment where the SSM secret-parameter read is denied. -/
def envSsmFail : SnsEnv :=
  ⟨.error ⟨"AccessDeniedException", "denied"⟩, fun _ => .ok ⟨"mid-1"⟩⟩

/-- A dispatcher environment where the SSM read succeeds but the second
publish call (index 1) fails. -/
def envPubFail : SnsEnv :=
  ⟨.ok "+15551230000",
    fun i => if i = 1 then .error ⟨"Throttling", "rate exceeded"⟩
      else .ok ⟨"mid-1"⟩⟩

/-- Two concrete detected faces. -/
def twoFaces : List FaceDetail :=
  [⟨20, 30, "attrs1"⟩, ⟨33, 41, "attrs2"⟩]

/-- Three concrete detected faces. -/
def threeFaces : List FaceDetail :=
  [⟨20, 30, "attrs1"⟩, ⟨33, 41, "attrs2"⟩, ⟨4, 10, "attrs3"⟩]

/-- A Rekognition environment whose `detect_faces` call fails. -/
def rekFail : RekEnv := ⟨.error ⟨"InvalidS3ObjectException", "no such object"⟩⟩

/-- A concrete upload event. -/
def eventPhotos : UploadEvent := ⟨"photos", "img1.jpg"⟩

/-- An SSM world holding one parameter created (tagged) by `userA`, with
tag listing working normally. -/
def ssmW3 : SsmWorld :=
  ⟨[("lt-phone", ⟨"+15550000000", [("CreatedBy", "userA")]⟩)], none⟩

/-- An SSM world holding one parameter tagged by `userA`, but whose tag
listing fails with an access-denied error. -/
def ssmW8 : SsmWorld :=
  ⟨[("lt-phone8", ⟨"+15552222222", [("CreatedBy", "userA")]⟩)],
    some ⟨"AccessDeniedException", "denied"⟩⟩

/-- A deploy invocation without `--phone-number-parameter-value`. -/
def cliDeployNoValue : CliInput :=
  ⟨some "deploy", some "lt-images", some "/lt/phone-number", none, none, none⟩

/-- A concrete chalice config with unrelated top-level keys and an
unrelated environment variable. -/
def cfgW : List (String × Json) :=
  [("app_name", .str "lt-chalice"),
   ("version", .str "2.0"),
   ("environment_variables",
     .obj [("OTHER", .str "x"), ("PHONE_NUM_PARAM", .str "old")]),
   ("stages", .obj [])]

/-- A concrete world for the delete action: chalice succeeds, the config
is `cfgW`, the SSM parameter is owned by the caller, and no bucket
exists. -/
def worldW9 : ManageWorld :=
  ⟨.ok "deleted resources", cfgW,
    ⟨[("/lt/phone-number", ⟨"+15550000000", [("CreatedBy", "userA")]⟩)], none⟩,
    .ok "userA", []⟩

/-- The argument namespace for the concrete delete action. -/
def argsW9 : Args :=
  ⟨"delete", "lt-images", "/lt/phone-number", none, "lt-chalice", "us-west-2"⟩

/-! ### Helper lemmas -/

theorem lookupKey_setKey_self : ∀ (m : List (String × Json)) (k : String)
    (v : Json), lookupKey (setKey m k v) k = some v
  | [], k, v => by simp [setKey, lookupKey]
  | (a, b) :: rest, k, v => by
    by_cases h : a = k
    · simp [setKey, lookupKey, h]
    · simp [setKey, lookupKey, h, lookupKey_setKey_self rest k v]

theorem lookupKey_setKey_other : ∀ (m : List (String × Json))
    (k k' : String) (v : Json), k' ≠ k →
    lookupKey (setKey m k v) k' = lookupKey m k'
  | [], k, k', v, h => by
    have h2 : ¬ k = k' := fun hh => h hh.symm
    simp [setKey, lookupKey, h2]
  | (a, b) :: rest, k, k', v, h => by
    by_cases hak : a = k
    · subst hak
      have h2 : ¬ a = k' := fun hh => h hh.symm
      simp [setKey, lookupKey, h2]
    · simp [setKey, lookupKey, hak, lookupKey_setKey_other rest k k' v h]

theorem isOk_exists {ε α : Type} (x : Except ε α)
    (h : x.isOk = true) : ∃ r, x = .ok r := by
  cases x with
  | ok r => exact ⟨r, rfl⟩
  | error e => simp [Except.isOk, Except.toBool] at h

theorem sendLoop_ok (env : SnsEnv) (phone : String) :
    ∀ (faces : List FaceDetail) (s : Nat) (acc : Option SnsResp),
      (∀ j, j < faces.length → (env.publish (s + j)).isOk = true) →
      (sendLoop env phone s faces acc).2.1 =
        faces.map (fun fd => PublishCall.mk (ageMessage fd) phone) ∧
      (sendLoop env phone s faces acc).2.2 = []
  | [], s, acc, _ => by simp [sendLoop]
  | fd :: rest, s, acc, h => by
    obtain ⟨r, hr⟩ := isOk_exists (env.publish s) (by simpa using h 0 (by simp))
    have ih := sendLoop_ok env phone rest (s + 1) (some r) (fun j hj => by
      have := h (j + 1) (by simpa using Nat.succ_lt_succ hj)
      rwa [show s + (j + 1) = s + 1 + j by omega] at this)
    simp [sendLoop, hr, ih.1, ih.2]

/-- The value the loop's `result` accumulator holds after a failure at
relative index `i`, when the loop was entered at call index `s` with
accumulator `acc`. -/
def loopResultAt (env : SnsEnv) (s : Nat) (acc : Option SnsResp) :
    Nat → Option SnsResp
  | 0 => acc
  | j + 1 => (env.publish (s + j)).toOption

theorem sendLoop_fail (env : SnsEnv) (phone : String) (e : ClientError) :
    ∀ (i : Nat) (faces : List FaceDetail) (s : Nat) (acc : Option SnsResp),
      i < faces.length →
      (∀ j, j < i → (env.publish (s + j)).isOk = true) →
      env.publish (s + i) = .error e →
      sendLoop env phone s faces acc =
        (loopResultAt env s acc i,
         (faces.take (i + 1)).map
           (fun fd => PublishCall.mk (ageMessage fd) phone),
         [⟨.error, "Unable to send notification! " ++ e.msg⟩])
  | 0, [], _, _, hi, _, _ => absurd hi (by simp)
  | 0, fd :: rest, s, acc, _, _, hfail => by
    rw [show s + 0 = s by omega] at hfail
    simp [sendLoop, hfail, loopResultAt]
  | i + 1, [], _, _, hi, _, _ => absurd hi (by simp)
  | i + 1, fd :: rest, s, acc, hi, hok, hfail => by
    obtain ⟨r, hr⟩ :=
      isOk_exists (env.publish s) (by simpa using hok 0 (by omega))
    have ih := sendLoop_fail env phone e i rest (s + 1) (some r)
      (by simpa using Nat.lt_of_succ_lt_succ hi)
      (fun j hj => by
        have := hok (j + 1) (by omega)
        rwa [show s + (j + 1) = s + 1 + j by omega] at this)
      (by rwa [show s + 1 + i = s + (i + 1) by omega])
    simp only [sendLoop, hr]
    rw [ih]
    refine Prod.ext ?_ (Prod.ext ?_ ?_)
    · cases i with
      | zero => simp [loopResultAt, hr, Except.toOption]
      | succ m =>
        simp [loopResultAt, show s + 1 + m = s + (m + 1) by omega]
    · simp [List.take]
    · simp

theorem sendLoop_empty (env : SnsEnv) (phone : String) (s : Nat)
    (acc : Option SnsResp) : sendLoop env phone s [] acc = (acc, [], []) := by
  simp [sendLoop]

theorem update_chalice_config_eq_obj (config : List (String × Json))
    (ev : List (String × Json)) (phone_num_name s3_bucket : String)
    (delete_flag : Bool)
    (hev : lookupKey config "environment_variables" = some (.obj ev)) :
    update_chalice_config config phone_num_name s3_bucket delete_flag =
      (.ok (setKey config "environment_variables"
        (.obj (setKey (setKey ev "PHONE_NUM_PARAM"
          (.str (if delete_flag then "" else phone_num_name)))
          "S3_BUCKET" (.str (if delete_flag then "" else s3_bucket))))),
       [⟨.debug, "Chalice config before"⟩, ⟨.debug, "Chalice config after"⟩]) := by
  simp [update_chalice_config, hev]

theorem update_chalice_config_eq_none (config : List (String × Json))
    (phone_num_name s3_bucket : String) (delete_flag : Bool)
    (hev : lookupKey config "environment_variables" = none) :
    update_chalice_config config phone_num_name s3_bucket delete_flag =
      (.ok (setKey (setKey config "environment_variables" (.obj []))
        "environment_variables"
        (.obj [("PHONE_NUM_PARAM",
          .str (if delete_flag then "" else phone_num_name)),
          ("S3_BUCKET", .str (if delete_flag then "" else s3_bucket))])),
       [⟨.debug, "Chalice config before"⟩, ⟨.debug, "Chalice config after"⟩]) := by
  have hself := lookupKey_setKey_self config "environment_variables" (.obj [])
  simp [update_chalice_config, hev, hself, setKey]

theorem update_chalice_config_spec (config : List (String × Json))
    (phone_num_name s3_bucket : String) (delete_flag : Bool)
    (hwf : WellFormedConfig config) :
    ((update_chalice_config config phone_num_name s3_bucket delete_flag).1).isOk
      = true ∧
    (∀ k, k ≠ "environment_variables" →
      lookupKey (okFields
        (update_chalice_config config phone_num_name s3_bucket delete_flag).1) k
        = lookupKey config k) ∧
    lookupKey (envFields (okFields
      (update_chalice_config config phone_num_name s3_bucket delete_flag).1))
      "PHONE_NUM_PARAM"
      = some (.str (if delete_flag then "" else phone_num_name)) ∧
    lookupKey (envFields (okFields
      (update_chalice_config config phone_num_name s3_bucket delete_flag).1))
      "S3_BUCKET" = some (.str (if delete_flag then "" else s3_bucket)) ∧
    (∀ k, k ≠ "PHONE_NUM_PARAM" → k ≠ "S3_BUCKET" →
      lookupKey (envFields (okFields
        (update_chalice_config config phone_num_name s3_bucket delete_flag).1)) k
        = lookupKey (envFields config) k) := by
  rcases hwf with habs | ⟨ev, hev⟩
  · rw [update_chalice_config_eq_none config phone_num_name s3_bucket
      delete_flag habs]
    have hself2 := lookupKey_setKey_self
      (setKey config "environment_variables" (.obj []))
      "environment_variables"
      (.obj [("PHONE_NUM_PARAM",
        Json.str (if delete_flag then "" else phone_num_name)),
        ("S3_BUCKET", Json.str (if delete_flag then "" else s3_bucket))])
    refine ⟨rfl, ?_, ?_, ?_, ?_⟩
    · intro k hk
      simp only [okFields]
      rw [lookupKey_setKey_other _ _ _ _ hk, lookupKey_setKey_other _ _ _ _ hk]
    · simp only [okFields, envFields, hself2, lookupKey]
      simp
    · simp only [okFields, envFields, hself2, lookupKey]
      simp
    · intro k hk1 hk2
      simp only [okFields, envFields, hself2, habs, lookupKey]
      have h1 : ¬ "PHONE_NUM_PARAM" = k := fun hh => hk1 hh.symm
      have h2 : ¬ "S3_BUCKET" = k := fun hh => hk2 hh.symm
      simp [h1, h2]
  · rw [update_chalice_config_eq_obj config ev phone_num_name s3_bucket
      delete_flag hev]
    have hself2 := lookupKey_setKey_self config "environment_variables"
      (Json.obj (setKey (setKey ev "PHONE_NUM_PARAM"
        (.str (if delete_flag then "" else phone_num_name)))
        "S3_BUCKET" (.str (if delete_flag then "" else s3_bucket))))
    have hps : ("PHONE_NUM_PARAM" : String) ≠ "S3_BUCKET" := by decide
    refine ⟨rfl, ?_, ?_, ?_, ?_⟩
    · intro k hk
      simp only [okFields]
      rw [lookupKey_setKey_other _ _ _ _ hk]
    · simp only [okFields, envFields, hself2]
      rw [lookupKey_setKey_other _ _ _ _ hps, lookupKey_setKey_self]
    · simp only [okFields, envFields, hself2]
      rw [lookupKey_setKey_self]
    · intro k hk1 hk2
      simp only [okFields, envFields, hself2, hev]
      rw [lookupKey_setKey_other _ _ _ _ hk2, lookupKey_setKey_other _ _ _ _ hk1]

theorem delete_ssm_param_no_raise (w : SsmWorld)
    (stsResult : Except ClientError String) (name : String) :
    (delete_ssm_param w stsResult name).2.2 = none := by
  simp only [delete_ssm_param, deleteParameter]
  cases h : findParam w.params name <;> split <;> simp

theorem delete_s3_bucket_nonexistent (buckets : List (String × List String))
    (name : String) (h : findBucket buckets name = none) :
    delete_s3_bucket buckets name =
      (buckets, [⟨.info, "S3 bucket \"" ++ name ++
        "\" does not exist.  Proceeding."⟩], none) := by
  simp [delete_s3_bucket, s3DeleteBucketRaw, h]

/-! ### Claim theorems -/

/-- C1: for every upload event for which the inference call succeeds and
returns k face-detail records, `send_notification` issues exactly k publish
calls to the messaging service, one per face, in the order the faces were
returned (given that the secret-parameter read resolves the phone number
and the publish calls themselves are accepted by the service). -/
theorem send_notification_one_publish_per_face (env : SnsEnv)
    (phone : String) (faces : List FaceDetail)
    (hssm : env.getParameter = .ok phone)
    (hpub : publishesOk env faces.length) :
    (send_notification env faces).2.1 =
      faces.map (fun fd => PublishCall.mk (ageMessage fd) phone) ∧
    (send_notification env faces).2.1.length = faces.length := by
  have h := sendLoop_ok env phone faces 0 none
    (fun j hj => by simpa using hpub j hj)
  constructor
  · simpa [send_notification, hssm] using h.1
  · simp [send_notification, hssm, h.1]

/-- Witness for C1 at a concrete environment and two faces. -/
theorem send_notification_one_publish_per_face_witness :
    envAllOk.getParameter = .ok "+15551230000" ∧
    publishesOk envAllOk twoFaces.length ∧
    (send_notification envAllOk twoFaces).2.1 =
      [⟨"The detected face is between 20 and 30 years old", "+15551230000"⟩,
       ⟨"The detected face is between 33 and 41 years old", "+15551230000"⟩] ∧
    (send_notification envAllOk twoFaces).2.1.length = twoFaces.length := by
  have h := send_notification_one_publish_per_face envAllOk "+15551230000"
    twoFaces rfl (fun j _ => rfl)
  exact ⟨rfl, fun j _ => rfl, h.1.trans (by decide), h.2⟩

/-- C2: for every collection of face details, if the secret-parameter read
fails, `send_notification` makes zero publish calls, logs an error, and
returns the empty result; the `ClientError` is caught, so nothing is
raised (the model is a total function). -/
theorem send_notification_ssm_failure_aborts (env : SnsEnv)
    (face_details : List FaceDetail) (e : ClientError)
    (h : env.getParameter = .error e) :
    send_notification env face_details =
      (none, [], [⟨.error, "Unable to retreive phone number! " ++ e.msg⟩]) := by
  simp [send_notification, h]

/-- Witness for C2 at a concrete denied SSM read and three faces. -/
theorem send_notification_ssm_failure_aborts_witness :
    envSsmFail.getParameter = .error ⟨"AccessDeniedException", "denied"⟩ ∧
    send_notification envSsmFail threeFaces =
      (none, [], [⟨.error, "Unable to retreive phone number! denied"⟩]) := by
  have h := send_notification_ssm_failure_aborts envSsmFail threeFaces
    ⟨"AccessDeniedException", "denied"⟩ rfl
  exact ⟨rfl, h.trans (by decide)⟩

/-- C5: for every upload event, if the inference call fails with a service
client error, `recognize_faces` logs an error and returns the empty list,
and `image_upload_handler` completes normally (the error is caught; the
handler goes on to dispatch the empty face list, issuing no publish
calls). -/
theorem recognize_faces_failure_empty (renv : RekEnv) (senv : SnsEnv)
    (event : UploadEvent) (e : ClientError)
    (h : renv.detectFaces = .error e) :
    recognize_faces renv event =
      ([], [⟨.error, "Unable to run face detection! " ++ e.msg⟩]) ∧
    (image_upload_handler renv senv event).2.1 = [] := by
  have h1 : recognize_faces renv event =
      ([], [⟨.error, "Unable to run face detection! " ++ e.msg⟩]) := by
    simp [recognize_faces, h]
  refine ⟨h1, ?_⟩
  simp only [image_upload_handler, h1]
  cases hg : senv.getParameter <;> simp [send_notification, hg, sendLoop]

/-- Witness for C5 at a concrete failing inference call. -/
theorem recognize_faces_failure_empty_witness :
    rekFail.detectFaces = .error ⟨"InvalidS3ObjectException", "no such object"⟩ ∧
    recognize_faces rekFail eventPhotos =
      ([], [⟨.error, "Unable to run face detection! no such object"⟩]) ∧
    (image_upload_handler rekFail envAllOk eventPhotos).2.1 = [] := by
  have h := recognize_faces_failure_empty rekFail envAllOk eventPhotos
    ⟨"InvalidS3ObjectException", "no such object"⟩ rfl
  exact ⟨rfl, h.1.trans (by decide), h.2⟩

/-- C6: for an upload whose inference response contains exactly one face
with age range low 20, high 30, and a successful secret-parameter read,
the dispatcher issues exactly one publish call whose message text is
exactly "The detected face is between 20 and 30 years old", addressed to
the resolved phone number. -/
theorem send_notification_single_face_message (env : SnsEnv)
    (phone : String) (fd : FaceDetail) (hssm : env.getParameter = .ok phone)
    (hl : fd.ageLow = 20) (hh : fd.ageHigh = 30)
    (hpub : (env.publish 0).isOk = true) :
    (send_notification env [fd]).2.1 =
      [⟨"The detected face is between 20 and 30 years old", phone⟩] := by
  obtain ⟨r, hr⟩ := isOk_exists _ hpub
  simp [send_notification, hssm, sendLoop, hr]
  rw [ageMessage, hl, hh]
  rfl

/-- Witness for C6 at a concrete environment. -/
theorem send_notification_single_face_message_witness :
    envAllOk.getParameter = .ok "+15551230000" ∧
    (envAllOk.publish 0).isOk = true ∧
    (send_notification envAllOk [⟨20, 30, "attrs1"⟩]).2.1 =
      [⟨"The detected face is between 20 and 30 years old", "+15551230000"⟩] :=
  ⟨rfl, rfl,
    send_notification_single_face_message envAllOk "+15551230000"
      ⟨20, 30, "attrs1"⟩ rfl rfl rfl rfl⟩

/-- C7: if the publish call at index i fails while earlier ones succeeded
(i < k faces), `send_notification` logs the error, issues no publish calls
for the faces after index i, raises nothing, and returns the result of the
last successful publish (the empty result when the first publish failed):
the call trace is exactly the first i+1 faces' messages. -/
theorem send_notification_publish_failure_partial (env : SnsEnv)
    (phone : String) (faces : List FaceDetail) (i : Nat) (e : ClientError)
    (hssm : env.getParameter = .ok phone)
    (hi : i < faces.length)
    (hok : publishesOk env i)
    (hfail : env.publish i = .error e) :
    send_notification env faces =
      (lastOkResult env i,
       (faces.take (i + 1)).map
         (fun fd => PublishCall.mk (ageMessage fd) phone),
       [⟨.error, "Unable to send notification! " ++ e.msg⟩]) := by
  have h := sendLoop_fail env phone e i faces 0 none hi
    (fun j hj => by simpa using hok j hj)
    (by simpa using hfail)
  simp only [send_notification, hssm]
  rw [h]
  cases i with
  | zero => simp [loopResultAt, lastOkResult]
  | succ j => simp [loopResultAt, lastOkResult]

/-- Witness for C7: three faces, the publish at index 1 fails; exactly two
calls are issued and the result is the first publish's response. -/
theorem send_notification_publish_failure_partial_witness :
    envPubFail.getParameter = .ok "+15551230000" ∧
    publishesOk envPubFail 1 ∧
    envPubFail.publish 1 = .error ⟨"Throttling", "rate exceeded"⟩ ∧
    send_notification envPubFail threeFaces =
      (some ⟨"mid-1"⟩,
       [⟨"The detected face is between 20 and 30 years old", "+15551230000"⟩,
        ⟨"The detected face is between 33 and 41 years old", "+15551230000"⟩],
       [⟨.error, "Unable to send notification! rate exceeded"⟩]) := by
  have hok : publishesOk envPubFail 1 := fun j hj => by
    have hj0 : j = 0 := by omega
    subst hj0; rfl
  have h := send_notification_publish_failure_partial envPubFail
    "+15551230000" threeFaces 1 ⟨"Throttling", "rate exceeded"⟩ rfl
    (by decide) hok rfl
  exact ⟨rfl, hok, rfl, h.trans (by decide)⟩

/-- C3 counterexample: with the parameter already created and tagged by
`userA` and the current caller `userB`, `create_ssm_param` leaves the
state unchanged and raises nothing, but its log-entry list is EMPTY — no
"skipped" message is emitted, refuting the claim's logging part (the
mismatch arm of the inner `if` in the source has no body at all). -/
theorem create_ssm_param_skip_unlogged_cex :
    create_ssm_param ssmW3 (.ok "userB") "lt-phone" "+15551111111" =
      (ssmW3, [], none) := by decide

/-- C3 amended: when the parameter exists, its tags are readable, and the
current caller differs from the `CreatedBy` tag value, `create_ssm_param`
leaves the parameter (value and tags) unchanged and raises no exception,
but logs nothing — the skip is silent. -/
theorem create_ssm_param_mismatch_silent_skip (w : SsmWorld)
    (stsResult : Except ClientError String) (name value b : String)
    (p : SsmParam)
    (hp : findParam w.params name = some p)
    (hfault : w.listTagsFault = none)
    (hsts : stsResult = .ok b)
    (hne : b ≠ p.tags.foldl
      (fun acc t => if t.1 = "CreatedBy" then t.2 else acc)
      "lt-chalice-user") :
    create_ssm_param w stsResult name value = (w, [], none) := by
  subst hsts
  simp [create_ssm_param, get_current_user, get_ssm_param_userid,
    listTagsForResource, hfault, hp, putParameterCreate, hne]

/-- Witness for the amended C3 at the concrete two-user state. -/
theorem create_ssm_param_mismatch_silent_skip_witness :
    findParam ssmW3.params "lt-phone" =
      some ⟨"+15550000000", [("CreatedBy", "userA")]⟩ ∧
    ssmW3.listTagsFault = none ∧
    ("userB" : String) ≠ "userA" ∧
    create_ssm_param ssmW3 (.ok "userB") "lt-phone" "+15551111111" =
      (ssmW3, [], none) := by
  have h := create_ssm_param_mismatch_silent_skip ssmW3 (.ok "userB")
    "lt-phone" "+15551111111" "userB"
    ⟨"+15550000000", [("CreatedBy", "userA")]⟩ rfl rfl rfl (by decide)
  exact ⟨rfl, rfl, by decide, h⟩

/-- C4 counterexample: a deploy invocation without
`--phone-number-parameter-value` is ACCEPTED by the argument parser (it
returns a parsed namespace with `phone_num_value = None`), refuting the
claim that such an invocation is rejected at argument parsing. -/
theorem parse_arguments_deploy_without_value_cex :
    parse_arguments cliDeployNoValue =
      .ok ⟨"deploy", "lt-images", "/lt/phone-number", none, "lt-chalice",
        "us-west-2"⟩ := by rfl

/-- C4 amended: `--phone-number-parameter-value` is optional at argument
parsing (its `add_argument` has no `required=True`): any deploy invocation
supplying the three required options but no value parses successfully with
`phone_num_value = None`, and the flow proceeds toward the
parameter-creation step rather than being rejected. -/
theorem parse_arguments_value_optional (cli : CliInput) (b n : String)
    (ha : cli.action = some "deploy")
    (hb : cli.s3_bucket = some b)
    (hn : cli.phone_num_name = some n)
    (hv : cli.phone_num_value = none) :
    parse_arguments cli =
      .ok ⟨"deploy", b, n, none, cli.chalice_app_dir.getD "lt-chalice",
        cli.region.getD "us-west-2"⟩ := by
  simp [parse_arguments, ha, hb, hn, hv]

/-- Witness for the amended C4 at the concrete command line. -/
theorem parse_arguments_value_optional_witness :
    cliDeployNoValue.action = some "deploy" ∧
    cliDeployNoValue.phone_num_value = none ∧
    parse_arguments cliDeployNoValue =
      .ok ⟨"deploy", "lt-images", "/lt/phone-number", none, "lt-chalice",
        "us-west-2"⟩ :=
  ⟨rfl, rfl,
    parse_arguments_value_optional cliDeployNoValue "lt-images"
      "/lt/phone-number" rfl rfl rfl rfl⟩

/-- C8: when the `CreatedBy` tag lookup fails (tags unreadable) and the
caller-identity lookup also fails, both sides default to the placeholder
`lt-chalice-user`, the ownership comparison succeeds, and the mutating
delete proceeds: the parameter (created by someone else) is removed, with
no exception. -/
theorem delete_ssm_param_default_identity_proceeds (w : SsmWorld)
    (stsResult : Except ClientError String) (name : String)
    (e e2 : ClientError) (p : SsmParam)
    (hfault : w.listTagsFault = some e)
    (hsts : stsResult = .error e2)
    (hp : findParam w.params name = some p) :
    (get_current_user stsResult).1 = "lt-chalice-user" ∧
    (get_ssm_param_userid (listTagsForResource w name)).1 =
      "lt-chalice-user" ∧
    (delete_ssm_param w stsResult name).2.2 = none ∧
    (delete_ssm_param w stsResult name).1.params =
      removeParam w.params name := by
  subst hsts
  have hpu : (get_ssm_param_userid (listTagsForResource w name)).1 =
      "lt-chalice-user" := by
    by_cases hc : e.code = "InvalidResourceId" <;>
      simp [get_ssm_param_userid, listTagsForResource, hfault, hc]
  refine ⟨rfl, hpu, delete_ssm_param_no_raise _ _ _, ?_⟩
  simp [delete_ssm_param, deleteParameter, hp, get_current_user, hpu]

/-- Witness for C8: an unauthenticated caller deletes `userA`'s
parameter. -/
theorem delete_ssm_param_default_identity_proceeds_witness :
    ssmW8.listTagsFault = some ⟨"AccessDeniedException", "denied"⟩ ∧
    findParam ssmW8.params "lt-phone8" =
      some ⟨"+15552222222", [("CreatedBy", "userA")]⟩ ∧
    (get_current_user (.error ⟨"ExpiredToken", "expired"⟩)).1 =
      "lt-chalice-user" ∧
    (get_ssm_param_userid (listTagsForResource ssmW8 "lt-phone8")).1 =
      "lt-chalice-user" ∧
    (delete_ssm_param ssmW8 (.error ⟨"ExpiredToken", "expired"⟩)
      "lt-phone8").2.2 = none ∧
    (delete_ssm_param ssmW8 (.error ⟨"ExpiredToken", "expired"⟩)
      "lt-phone8").1.params = [] := by
  have h := delete_ssm_param_default_identity_proceeds ssmW8
    (.error ⟨"ExpiredToken", "expired"⟩) "lt-phone8"
    ⟨"AccessDeniedException", "denied"⟩ ⟨"ExpiredToken", "expired"⟩
    ⟨"+15552222222", [("CreatedBy", "userA")]⟩ rfl rfl rfl
  exact ⟨rfl, rfl, h.1, h.2.1, h.2.2.1, h.2.2.2.trans (by decide)⟩

/-- C10: on every well-formed config, `update_chalice_config` succeeds and
changes only the `PHONE_NUM_PARAM` and `S3_BUCKET` entries inside
`environment_variables` (to the real names on deploy, to empty strings on
delete); every other top-level key and every other entry of
`environment_variables` is preserved. -/
theorem update_chalice_config_frame (config : List (String × Json))
    (phone_num_name s3_bucket : String) (delete_flag : Bool)
    (hwf : WellFormedConfig config) :
    ((update_chalice_config config phone_num_name s3_bucket delete_flag).1).isOk
      = true ∧
    (∀ k, k ≠ "environment_variables" →
      lookupKey (okFields
        (update_chalice_config config phone_num_name s3_bucket delete_flag).1) k
        = lookupKey config k) ∧
    lookupKey (envFields (okFields
      (update_chalice_config config phone_num_name s3_bucket delete_flag).1))
      "PHONE_NUM_PARAM"
      = some (.str (if delete_flag then "" else phone_num_name)) ∧
    lookupKey (envFields (okFields
      (update_chalice_config config phone_num_name s3_bucket delete_flag).1))
      "S3_BUCKET" = some (.str (if delete_flag then "" else s3_bucket)) ∧
    (∀ k, k ≠ "PHONE_NUM_PARAM" → k ≠ "S3_BUCKET" →
      lookupKey (envFields (okFields
        (update_chalice_config config phone_num_name s3_bucket delete_flag).1)) k
        = lookupKey (envFields config) k) :=
  update_chalice_config_spec config phone_num_name s3_bucket delete_flag hwf

/-- Witness for C10 at a concrete config with unrelated keys. -/
theorem update_chalice_config_frame_witness :
    WellFormedConfig cfgW ∧
    ((update_chalice_config cfgW "/lt/phone-number" "lt-images" false).1).isOk
      = true ∧
    lookupKey (okFields
      (update_chalice_config cfgW "/lt/phone-number" "lt-images" false).1)
      "app_name" = lookupKey cfgW "app_name" ∧
    lookupKey (envFields (okFields
      (update_chalice_config cfgW "/lt/phone-number" "lt-images" false).1))
      "PHONE_NUM_PARAM" = some (.str "/lt/phone-number") ∧
    lookupKey (envFields (okFields
      (update_chalice_config cfgW "/lt/phone-number" "lt-images" false).1))
      "S3_BUCKET" = some (.str "lt-images") ∧
    lookupKey (envFields (okFields
      (update_chalice_config cfgW "/lt/phone-number" "lt-images" false).1))
      "OTHER" = lookupKey (envFields cfgW) "OTHER" := by
  have hwf : WellFormedConfig cfgW := Or.inr ⟨_, rfl⟩
  have h := update_chalice_config_frame cfgW "/lt/phone-number" "lt-images"
    false hwf
  exact ⟨hwf, h.1, h.2.1 "app_name" (by decide), h.2.2.1, h.2.2.2.1,
    h.2.2.2.2 "OTHER" (by decide) (by decide)⟩

/-- C9: running the delete action when the bucket does not exist completes
without raising anything, and leaves the deployment configuration with
both `PHONE_NUM_PARAM` and `S3_BUCKET` set to the empty string (assuming
the chalice delete subprocess succeeds and the config file is
well-formed). -/
theorem runDelete_nonexistent_bucket (w : ManageWorld) (args : Args)
    (hch : w.chaliceResult.isOk = true)
    (hcfg : WellFormedConfig w.config)
    (hbucket : findBucket w.buckets args.s3_bucket = none) :
    (runDelete w args).2.2 = none ∧
    lookupKey (envFields (runDelete w args).1.config) "PHONE_NUM_PARAM" =
      some (.str "") ∧
    lookupKey (envFields (runDelete w args).1.config) "S3_BUCKET" =
      some (.str "") ∧
    (runDelete w args).1.buckets = w.buckets := by
  obtain ⟨out, hout⟩ := isOk_exists w.chaliceResult hch
  have spec := update_chalice_config_spec w.config args.phone_num_name
    args.s3_bucket true hcfg
  obtain ⟨cfg1, hcfg1⟩ := isOk_exists _ spec.1
  have h3 := spec.2.2.1
  have h4 := spec.2.2.2.1
  rw [hcfg1] at h3 h4
  simp only [okFields] at h3 h4
  simp only [runDelete, hout, chalice_command, hcfg1,
    delete_ssm_param_no_raise,
    delete_s3_bucket_nonexistent _ _ hbucket]
  simp_all

/-- Witness for C9: the delete action on a world with no buckets completes
with nothing raised and a blanked config. -/
theorem runDelete_nonexistent_bucket_witness :
    worldW9.chaliceResult.isOk = true ∧
    WellFormedConfig worldW9.config ∧
    findBucket worldW9.buckets argsW9.s3_bucket = none ∧
    (runDelete worldW9 argsW9).2.2 = none ∧
    lookupKey (envFields (runDelete worldW9 argsW9).1.config)
      "PHONE_NUM_PARAM" = some (.str "") ∧
    lookupKey (envFields (runDelete worldW9 argsW9).1.config) "S3_BUCKET" =
      some (.str "") ∧
    (runDelete worldW9 argsW9).1.buckets = worldW9.buckets := by
  have hwf : WellFormedConfig worldW9.config := Or.inr ⟨_, rfl⟩
  have h := runDelete_nonexistent_bucket worldW9 argsW9 rfl hwf rfl
  exact ⟨rfl, hwf, rfl, h.1, h.2.1, h.2.2.1, h.2.2.2⟩
